import Mathlib

/-!
Shallow embedding of the vst3go C bridge layer (src/bridge/bridge.c,
src/bridge/component.c): a COM-style adapter exposing IPluginFactory,
IComponent, IAudioProcessor and IEditController vtables and forwarding
most calls to a managed (Go) runtime.

Modelling conventions:
* A 16-byte interface identifier (Steinberg_TUID) is a list of bytes;
  `memcmp16` is the byte-for-byte comparison `memcmp(a, b, 16) == 0`.
* The interface-id constants (`Steinberg_FUnknown_iid`, ...) live in the
  third-party SDK header, so their byte values are kept abstract: the
  functions take an `IIDs` record of the six constants, and theorems
  assume only the pairwise distinctness the real ABI constants satisfy.
* Pointer identity matters for the QueryInterface claims, so the facade
  pointers of the one component under study are an explicit `Ptr` type;
  `Heap` is the state of that component's allocation (`none` = freed),
  plus the trace of Go handles passed to `GoReleaseComponent`.
* Go callbacks are an environment record `GoEnv`; opaque pointers that
  the C code never dereferences are passed through as `Nat` tokens, and
  the 64-bit `ParamValue` payload is an opaque token as well (the bridge
  never computes with it).
* C `int` reference counts are modelled as `Int` (overflow is irrelevant
  to every claim considered).
-/

set_option autoImplicit false

/-- A 16-byte interface identifier; only the first 16 bytes take part in
`memcmp(iid, other, sizeof(Steinberg_TUID))`. -/
abbrev TUID := List Nat

/-- `memcmp(a, b, 16) == 0`: byte-for-byte equality of the 16-byte ids. -/
def memcmp16 (a b : TUID) : Bool :=
  a.take 16 == b.take 16

/-- The six interface-id constants the bridge compares against; their byte
values are defined in the SDK header `vst3_c_api.h` (outside this layer). -/
structure IIDs where
  funknown : TUID
  ipluginfactory : TUID
  ipluginbase : TUID
  icomponent : TUID
  iaudioprocessor : TUID
  ieditcontroller : TUID
deriving Repr, DecidableEq

/-- Pointers that can be produced by the bridge's QueryInterface logic:
NULL, the factory object, the Component object, and the two interface
facades embedded in the Component struct. -/
inductive Ptr where
  | null
  | factory
  | component
  | audioProc
  | editCtrl
deriving Repr, DecidableEq

/-- The factory vtable pointer: `globalFactory->vtbl = &factoryVtbl`. -/
inductive FactoryVtblPtr where
  | factoryVtbl
deriving Repr, DecidableEq

/-- `PluginFactory` from bridge.c: vtable pointer and reference count. -/
structure PluginFactory where
  vtbl : FactoryVtblPtr
  refCount : Int
deriving Repr, DecidableEq

/-- `factory_addRef`: `return ++factory->refCount`. Yields the updated
object and the returned count. -/
def factory_addRef (f : PluginFactory) : PluginFactory × Int :=
  ({ f with refCount := f.refCount + 1 }, f.refCount + 1)

/-- `factory_release`: pre-decrement; on zero, `free(factory)` (modelled
by `none`) and return 0, otherwise return the decremented count. -/
def factory_release (f : PluginFactory) : Option PluginFactory × Int :=
  if f.refCount - 1 = 0 then
    (none, 0)
  else
    (some { f with refCount := f.refCount - 1 }, f.refCount - 1)

/-- `factory_queryInterface`: on a byte-for-byte match with the FUnknown
or IPluginFactory id, `*obj = thisInterface`, add a reference and return
kResultOk; otherwise `*obj = NULL` and return kNoInterface. -/
def factory_queryInterface (ids : IIDs) (f : PluginFactory) (iid : TUID) :
    PluginFactory × Ptr × Int :=
  if memcmp16 iid ids.funknown || memcmp16 iid ids.ipluginfactory then
    ((factory_addRef f).1, Ptr.factory, 0)
  else
    (f, Ptr.null, -1)

/-- `AudioProcessorInterface` from component.c: the embedded facade holds
a back-pointer to the owning Component (its vtable dispatch is fixed). -/
structure AudioProcessorInterface where
  component : Ptr
deriving Repr, DecidableEq

/-- `EditControllerInterface` from component.c. -/
structure EditControllerInterface where
  component : Ptr
deriving Repr, DecidableEq

/-- `struct Component`: the IComponent object with its two embedded
interface facades, the shared reference count and the Go handle. -/
structure Component where
  audioProcessor : AudioProcessorInterface
  editController : EditControllerInterface
  refCount : Int
  goComponent : Nat
deriving Repr, DecidableEq

/-- Heap state for the component under study: `comp = none` means the
allocation has been freed; `goReleased` records the Go handles passed to
`GoReleaseComponent`, in order. -/
structure Heap where
  comp : Option Component
  goReleased : List Nat
deriving Repr, DecidableEq

/-- `createComponent`: allocate the Component, point both embedded facades
back at it, set refCount to 1 and store the Go handle. -/
def createComponent (goComponent : Nat) : Heap :=
  { comp := some
      { audioProcessor := { component := Ptr.component }
      , editController := { component := Ptr.component }
      , refCount := 1
      , goComponent := goComponent }
  , goReleased := [] }

/-- Dereference a `Component*`: only the Component's own address resolves,
and only while the allocation is live. -/
def Heap.lookupComponent (h : Heap) (p : Ptr) : Option Component :=
  match p with
  | Ptr.component => h.comp
  | _ => none

/-- Dereference an `AudioProcessorInterface*` (the embedded facade). -/
def Heap.lookupAudio (h : Heap) (p : Ptr) : Option AudioProcessorInterface :=
  match p with
  | Ptr.audioProc => h.comp.map (fun c => c.audioProcessor)
  | _ => none

/-- Dereference an `EditControllerInterface*` (the embedded facade). -/
def Heap.lookupController (h : Heap) (p : Ptr) : Option EditControllerInterface :=
  match p with
  | Ptr.editCtrl => h.comp.map (fun c => c.editController)
  | _ => none

/-- `component_addRef`: `return ++component->refCount`. -/
def component_addRef (h : Heap) (p : Ptr) : Option (Heap × Int) :=
  (h.lookupComponent p).map (fun c =>
    ({ h with comp := some { c with refCount := c.refCount + 1 } },
     c.refCount + 1))

/-- `component_release`: pre-decrement; on zero, `GoReleaseComponent` on
the wrapped handle, `free(component)` and return 0, otherwise return the
decremented count. -/
def component_release (h : Heap) (p : Ptr) : Option (Heap × Int) :=
  (h.lookupComponent p).map (fun c =>
    if c.refCount - 1 = 0 then
      ({ comp := none, goReleased := h.goReleased ++ [c.goComponent] }, 0)
    else
      ({ h with comp := some { c with refCount := c.refCount - 1 } },
       c.refCount - 1))

/-- `component_queryInterface`: FUnknown/IPluginBase/IComponent yield the
Component pointer itself; IAudioProcessor yields the embedded audio
facade; IEditController yields the embedded controller facade; each hit
adds a reference; any other id yields NULL and kNoInterface. -/
def component_queryInterface (ids : IIDs) (h : Heap) (p : Ptr) (iid : TUID) :
    Option (Heap × Ptr × Int) :=
  (h.lookupComponent p).bind (fun _ =>
    if memcmp16 iid ids.funknown || memcmp16 iid ids.ipluginbase ||
        memcmp16 iid ids.icomponent then
      (component_addRef h p).map (fun r => (r.1, p, 0))
    else if memcmp16 iid ids.iaudioprocessor then
      (component_addRef h p).map (fun r => (r.1, Ptr.audioProc, 0))
    else if memcmp16 iid ids.ieditcontroller then
      (component_addRef h p).map (fun r => (r.1, Ptr.editCtrl, 0))
    else
      some (h, Ptr.null, -1))

/-- `audio_queryInterface`: forwards to `component_queryInterface` on the
facade's back-pointer. -/
def audio_queryInterface (ids : IIDs) (h : Heap) (p : Ptr) (iid : TUID) :
    Option (Heap × Ptr × Int) :=
  (h.lookupAudio p).bind (fun a => component_queryInterface ids h a.component iid)

/-- `audio_addRef`: forwards to `component_addRef` on the back-pointer. -/
def audio_addRef (h : Heap) (p : Ptr) : Option (Heap × Int) :=
  (h.lookupAudio p).bind (fun a => component_addRef h a.component)

/-- `audio_release`: forwards to `component_release` on the back-pointer. -/
def audio_release (h : Heap) (p : Ptr) : Option (Heap × Int) :=
  (h.lookupAudio p).bind (fun a => component_release h a.component)

/-- `controller_queryInterface`: forwards to `component_queryInterface`. -/
def controller_queryInterface (ids : IIDs) (h : Heap) (p : Ptr) (iid : TUID) :
    Option (Heap × Ptr × Int) :=
  (h.lookupController p).bind (fun a => component_queryInterface ids h a.component iid)

/-- `controller_addRef`: forwards to `component_addRef`. -/
def controller_addRef (h : Heap) (p : Ptr) : Option (Heap × Int) :=
  (h.lookupController p).bind (fun a => component_addRef h a.component)

/-- `controller_release`: forwards to `component_release`. -/
def controller_release (h : Heap) (p : Ptr) : Option (Heap × Int) :=
  (h.lookupController p).bind (fun a => component_release h a.component)

/-- The four VST3 result codes the adapter's own logic produces. -/
def kResultOk : Int := 0

/-- kResultFalse. -/
def kResultFalse : Int := 1

/-- kNotImplemented. -/
def kNotImplemented : Int := 3

/-- kNoInterface. -/
def kNoInterface : Int := -1

/-- The fixed set of VST3 result codes. -/
def vstResultCodes : List Int := [kResultOk, kResultFalse, kNotImplemented, kNoInterface]

/-- The globals of bridge.c: the `globalFactory` pointer (address plus the
object it points to; `none` = NULL) and an allocation cursor standing for
`malloc` handing out fresh addresses. -/
structure BridgeGlobals where
  globalFactory : Option (Nat × PluginFactory)
  nextAddr : Nat
deriving Repr, DecidableEq

/-- `GetPluginFactory`: on first call allocate the singleton factory with
vtable set and refCount 1; afterwards return the stored pointer untouched.
Yields the new globals and the returned address. -/
def GetPluginFactory (s : BridgeGlobals) : BridgeGlobals × Nat :=
  match s.globalFactory with
  | none =>
      ({ globalFactory :=
           some (s.nextAddr, { vtbl := FactoryVtblPtr.factoryVtbl, refCount := 1 })
       , nextAddr := s.nextAddr + 1 }, s.nextAddr)
  | some af => (s, af.1)

/-- `ModuleEntry`: if already initialized return 1, else set the flag and
return 1. Yields the new `moduleInitialized` flag and the return value. -/
def ModuleEntry (moduleInitialized : Bool) : Bool × Int :=
  if moduleInitialized then
    (moduleInitialized, 1)
  else
    (true, 1)

/-- `ModuleExit`: clear the flag and return 1. -/
def ModuleExit (_moduleInitialized : Bool) : Bool × Int :=
  (false, 1)

/-- `Steinberg_PFactoryInfo` as filled in by the Go callback: three string
buffers and the flags word. -/
structure PFactoryInfo where
  vendor : List Nat
  url : List Nat
  email : List Nat
  flags : Int
deriving Repr, DecidableEq

/-- `Steinberg_PClassInfo` as filled in by the Go callback. -/
structure PClassInfo where
  cid : TUID
  cardinality : Int
  category : List Nat
  name : List Nat
deriving Repr, DecidableEq

/-- `ParamValue`: an opaque token standing for the 64-bit value the bridge
passes through without ever computing on it. -/
abbrev ParamValue := Int

/-- The managed-runtime (Go) callbacks the bridge delegates to, as an
environment record.  Pointer-typed arguments the C code never
dereferences are opaque `Nat` tokens; void callbacks that fill caller
buffers are modelled by the values they write.  `GoComponentSetState` and
`GoComponentGetState` are declared in component.h and appear here even
though component.c never calls them. -/
structure GoEnv where
  goGetFactoryInfo : PFactoryInfo
  goCountClasses : Int
  goGetClassInfo : Int → PClassInfo
  goCreateInstance : Nat → Nat → Option Nat
  goComponentInitialize : Nat → Nat → Int
  goComponentTerminate : Nat → Int
  goComponentGetControllerClassId : Nat → TUID
  goComponentSetIoMode : Nat → Int → Int
  goComponentGetBusCount : Nat → Int → Int → Int
  goComponentGetBusInfo : Nat → Int → Int → Int → Nat → Int
  goComponentActivateBus : Nat → Int → Int → Int → Int → Int
  goComponentSetActive : Nat → Int → Int
  goComponentSetState : Nat → Nat → Int
  goComponentGetState : Nat → Nat → Int
  goAudioSetBusArrangements : Nat → Nat → Int → Nat → Int → Int
  goAudioGetBusArrangement : Nat → Int → Int → Nat → Int
  goAudioCanProcessSampleSize : Nat → Int → Int
  goAudioGetLatencySamples : Nat → Int
  goAudioSetupProcessing : Nat → Nat → Int
  goAudioSetProcessing : Nat → Int → Int
  goAudioProcess : Nat → Nat → Int
  goAudioGetTailSamples : Nat → Int
  goEditControllerSetComponentState : Nat → Nat → Int
  goEditControllerSetState : Nat → Nat → Int
  goEditControllerGetState : Nat → Nat → Int
  goEditControllerGetParameterCount : Nat → Int
  goEditControllerGetParameterInfo : Nat → Int → Nat → Int
  goEditControllerGetParamStringByValue : Nat → Nat → ParamValue → Nat → Int
  goEditControllerGetParamValueByString : Nat → Nat → Nat → Int
  goEditControllerNormalizedParamToPlain : Nat → Nat → ParamValue → ParamValue
  goEditControllerPlainParamToNormalized : Nat → Nat → ParamValue → ParamValue
  goEditControllerGetParamNormalized : Nat → Nat → ParamValue
  goEditControllerSetParamNormalized : Nat → Nat → ParamValue → Int
  goEditControllerSetComponentHandler : Nat → Nat → Int
  goEditControllerCreateView : Nat → Nat → Nat

/-- `factory_getFactoryInfo`: let Go fill the info struct, return kResultOk. -/
def factory_getFactoryInfo (env : GoEnv) : PFactoryInfo × Int :=
  (env.goGetFactoryInfo, 0)

/-- `factory_countClasses`: `return GoCountClasses()`. -/
def factory_countClasses (env : GoEnv) : Int :=
  env.goCountClasses

/-- `factory_getClassInfo`: `index >= GoCountClasses()` yields kResultFalse
without calling Go; otherwise Go fills the info and kResultOk is
returned. -/
def factory_getClassInfo (env : GoEnv) (index : Int) : Option PClassInfo × Int :=
  if env.goCountClasses ≤ index then
    (none, 1)
  else
    (some (env.goGetClassInfo index), 0)

/-- `factory_createInstance`: a NULL instance from `GoCreateInstance`
yields `*obj = NULL` and kNoInterface, otherwise the instance and
kResultOk. -/
def factory_createInstance (env : GoEnv) (cid iid : Nat) : Option Nat × Int :=
  match env.goCreateInstance cid iid with
  | none => (none, -1)
  | some inst => (some inst, 0)

/-- Go handle reachable from an audio-facade pointer:
`audioProc->component->goComponent`. -/
def Heap.audioGo (h : Heap) (p : Ptr) : Option Nat :=
  (h.lookupAudio p).bind (fun a =>
    (h.lookupComponent a.component).map (fun c => c.goComponent))

/-- Go handle reachable from a controller-facade pointer. -/
def Heap.ctrlGo (h : Heap) (p : Ptr) : Option Nat :=
  (h.lookupController p).bind (fun a =>
    (h.lookupComponent a.component).map (fun c => c.goComponent))

/-- `component_initialize` (C symbol; trailing underscore avoids a name
clash in this development): delegates to `GoComponentInitialize`. -/
def component_initialize_ (env : GoEnv) (h : Heap) (p : Ptr) (context : Nat) :
    Option Int :=
  (h.lookupComponent p).map (fun c => env.goComponentInitialize c.goComponent context)

/-- `component_terminate`: delegates to `GoComponentTerminate`. -/
def component_terminate (env : GoEnv) (h : Heap) (p : Ptr) : Option Int :=
  (h.lookupComponent p).map (fun c => env.goComponentTerminate c.goComponent)

/-- `component_getControllerClassId`: Go fills the 16-byte buffer, the
method returns kResultOk. -/
def component_getControllerClassId (env : GoEnv) (h : Heap) (p : Ptr) :
    Option (TUID × Int) :=
  (h.lookupComponent p).map (fun c =>
    (env.goComponentGetControllerClassId c.goComponent, 0))

/-- `component_setIoMode`: delegates to `GoComponentSetIoMode`. -/
def component_setIoMode (env : GoEnv) (h : Heap) (p : Ptr) (mode : Int) :
    Option Int :=
  (h.lookupComponent p).map (fun c => env.goComponentSetIoMode c.goComponent mode)

/-- `component_getBusCount`: delegates to `GoComponentGetBusCount`. -/
def component_getBusCount (env : GoEnv) (h : Heap) (p : Ptr) (ty dir : Int) :
    Option Int :=
  (h.lookupComponent p).map (fun c => env.goComponentGetBusCount c.goComponent ty dir)

/-- `component_getBusInfo`: delegates to `GoComponentGetBusInfo`. -/
def component_getBusInfo (env : GoEnv) (h : Heap) (p : Ptr) (ty dir index : Int)
    (bus : Nat) : Option Int :=
  (h.lookupComponent p).map (fun c =>
    env.goComponentGetBusInfo c.goComponent ty dir index bus)

/-- `component_getRoutingInfo`: not implemented; returns kNotImplemented
without consulting any callback. -/
def component_getRoutingInfo (_env : GoEnv) (_h : Heap) (_p : Ptr)
    (_inInfo _outInfo : Nat) : Int :=
  3

/-- `component_activateBus`: delegates to `GoComponentActivateBus`. -/
def component_activateBus (env : GoEnv) (h : Heap) (p : Ptr) (ty dir index st : Int) :
    Option Int :=
  (h.lookupComponent p).map (fun c =>
    env.goComponentActivateBus c.goComponent ty dir index st)

/-- `component_setActive`: delegates to `GoComponentSetActive`. -/
def component_setActive (env : GoEnv) (h : Heap) (p : Ptr) (st : Int) :
    Option Int :=
  (h.lookupComponent p).map (fun c => env.goComponentSetActive c.goComponent st)

/-- `component_setState`: state handling is a TODO in component.c; the
method ignores its arguments and returns kResultOk without calling Go. -/
def component_setState (_env : GoEnv) (_h : Heap) (_p : Ptr) (_state : Nat) : Int :=
  0

/-- `component_getState`: same TODO; returns kResultOk without calling Go. -/
def component_getState (_env : GoEnv) (_h : Heap) (_p : Ptr) (_state : Nat) : Int :=
  0

/-- `audio_setBusArrangements`: delegates to `GoAudioSetBusArrangements`
on `audioProc->component->goComponent`. -/
def audio_setBusArrangements (env : GoEnv) (h : Heap) (p : Ptr)
    (inputs : Nat) (numIns : Int) (outputs : Nat) (numOuts : Int) : Option Int :=
  (h.audioGo p).map (fun g => env.goAudioSetBusArrangements g inputs numIns outputs numOuts)

/-- `audio_getBusArrangement`: delegates to `GoAudioGetBusArrangement`. -/
def audio_getBusArrangement (env : GoEnv) (h : Heap) (p : Ptr)
    (dir index : Int) (arr : Nat) : Option Int :=
  (h.audioGo p).map (fun g => env.goAudioGetBusArrangement g dir index arr)

/-- `audio_canProcessSampleSize`: delegates to `GoAudioCanProcessSampleSize`. -/
def audio_canProcessSampleSize (env : GoEnv) (h : Heap) (p : Ptr)
    (symbolicSampleSize : Int) : Option Int :=
  (h.audioGo p).map (fun g => env.goAudioCanProcessSampleSize g symbolicSampleSize)

/-- `audio_getLatencySamples`: delegates to `GoAudioGetLatencySamples`. -/
def audio_getLatencySamples (env : GoEnv) (h : Heap) (p : Ptr) : Option Int :=
  (h.audioGo p).map (fun g => env.goAudioGetLatencySamples g)

/-- `audio_setupProcessing`: delegates to `GoAudioSetupProcessing`. -/
def audio_setupProcessing (env : GoEnv) (h : Heap) (p : Ptr) (setup : Nat) :
    Option Int :=
  (h.audioGo p).map (fun g => env.goAudioSetupProcessing g setup)

/-- `audio_setProcessing`: delegates to `GoAudioSetProcessing`. -/
def audio_setProcessing (env : GoEnv) (h : Heap) (p : Ptr) (st : Int) : Option Int :=
  (h.audioGo p).map (fun g => env.goAudioSetProcessing g st)

/-- `audio_process`: delegates to `GoAudioProcess`. -/
def audio_process (env : GoEnv) (h : Heap) (p : Ptr) (data : Nat) : Option Int :=
  (h.audioGo p).map (fun g => env.goAudioProcess g data)

/-- `audio_getTailSamples`: delegates to `GoAudioGetTailSamples`. -/
def audio_getTailSamples (env : GoEnv) (h : Heap) (p : Ptr) : Option Int :=
  (h.audioGo p).map (fun g => env.goAudioGetTailSamples g)

/-- `controller_initialize` (C symbol; trailing underscore as for the
component): the object is already initialized as a component, so the
method returns kResultOk without calling Go. -/
def controller_initialize_ (_env : GoEnv) (_h : Heap) (_p : Ptr)
    (_context : Nat) : Int :=
  0

/-- `controller_terminate`: terminated as a component; returns kResultOk
without calling Go. -/
def controller_terminate (_env : GoEnv) (_h : Heap) (_p : Ptr) : Int :=
  0

/-- `controller_setComponentState`: delegates to
`GoEditControllerSetComponentState`. -/
def controller_setComponentState (env : GoEnv) (h : Heap) (p : Ptr)
    (state : Nat) : Option Int :=
  (h.ctrlGo p).map (fun g => env.goEditControllerSetComponentState g state)

/-- `controller_setState`: delegates to `GoEditControllerSetState`. -/
def controller_setState (env : GoEnv) (h : Heap) (p : Ptr) (state : Nat) :
    Option Int :=
  (h.ctrlGo p).map (fun g => env.goEditControllerSetState g state)

/-- `controller_getState`: delegates to `GoEditControllerGetState`. -/
def controller_getState (env : GoEnv) (h : Heap) (p : Ptr) (state : Nat) :
    Option Int :=
  (h.ctrlGo p).map (fun g => env.goEditControllerGetState g state)

/-- `controller_getParameterCount`: delegates to
`GoEditControllerGetParameterCount`. -/
def controller_getParameterCount (env : GoEnv) (h : Heap) (p : Ptr) : Option Int :=
  (h.ctrlGo p).map (fun g => env.goEditControllerGetParameterCount g)

/-- `controller_getParameterInfo`: delegates to
`GoEditControllerGetParameterInfo`. -/
def controller_getParameterInfo (env : GoEnv) (h : Heap) (p : Ptr)
    (paramIndex : Int) (info : Nat) : Option Int :=
  (h.ctrlGo p).map (fun g => env.goEditControllerGetParameterInfo g paramIndex info)

/-- `controller_getParamStringByValue`: delegates to
`GoEditControllerGetParamStringByValue`. -/
def controller_getParamStringByValue (env : GoEnv) (h : Heap) (p : Ptr)
    (id : Nat) (valueNormalized : ParamValue) (string : Nat) : Option Int :=
  (h.ctrlGo p).map (fun g =>
    env.goEditControllerGetParamStringByValue g id valueNormalized string)

/-- `controller_getParamValueByString`: delegates to
`GoEditControllerGetParamValueByString`. -/
def controller_getParamValueByString (env : GoEnv) (h : Heap) (p : Ptr)
    (id : Nat) (string : Nat) : Option Int :=
  (h.ctrlGo p).map (fun g => env.goEditControllerGetParamValueByString g id string)

/-- `controller_normalizedParamToPlain`: delegates to
`GoEditControllerNormalizedParamToPlain`. -/
def controller_normalizedParamToPlain (env : GoEnv) (h : Heap) (p : Ptr)
    (id : Nat) (valueNormalized : ParamValue) : Option ParamValue :=
  (h.ctrlGo p).map (fun g =>
    env.goEditControllerNormalizedParamToPlain g id valueNormalized)

/-- `controller_plainParamToNormalized`: delegates to
`GoEditControllerPlainParamToNormalized`. -/
def controller_plainParamToNormalized (env : GoEnv) (h : Heap) (p : Ptr)
    (id : Nat) (plainValue : ParamValue) : Option ParamValue :=
  (h.ctrlGo p).map (fun g =>
    env.goEditControllerPlainParamToNormalized g id plainValue)

/-- `controller_getParamNormalized`: delegates to
`GoEditControllerGetParamNormalized`. -/
def controller_getParamNormalized (env : GoEnv) (h : Heap) (p : Ptr)
    (id : Nat) : Option ParamValue :=
  (h.ctrlGo p).map (fun g => env.goEditControllerGetParamNormalized g id)

/-- `controller_setParamNormalized`: delegates to
`GoEditControllerSetParamNormalized`. -/
def controller_setParamNormalized (env : GoEnv) (h : Heap) (p : Ptr)
    (id : Nat) (value : ParamValue) : Option Int :=
  (h.ctrlGo p).map (fun g => env.goEditControllerSetParamNormalized g id value)

/-- `controller_setComponentHandler`: delegates to
`GoEditControllerSetComponentHandler`. -/
def controller_setComponentHandler (env : GoEnv) (h : Heap) (p : Ptr)
    (handler : Nat) : Option Int :=
  (h.ctrlGo p).map (fun g => env.goEditControllerSetComponentHandler g handler)

/-- `controller_createView`: delegates to `GoEditControllerCreateView`. -/
def controller_createView (env : GoEnv) (h : Heap) (p : Ptr) (nm : Nat) :
    Option Nat :=
  (h.ctrlGo p).map (fun g => env.goEditControllerCreateView g nm)

/-- Host-side `IParamValueQueue` vtable: each slot may be a NULL function
pointer; a present method is modelled by what it returns (and, for
`getPoint`, by the values it writes through the caller's pointers). -/
structure IParamValueQueueVtbl where
  getParameterId : Option Nat
  getPointCount : Option Int
  getPoint : Option (Int → Int × Int × ParamValue)

/-- Host-side `IParamValueQueue`: the vtable pointer may itself be NULL. -/
structure IParamValueQueue where
  lpVtbl : Option IParamValueQueueVtbl

/-- Host-side `IParameterChanges` vtable. `getParameterData` returns a
queue pointer (NULL = `none`). -/
structure IParameterChangesVtbl where
  getParameterCount : Option Int
  getParameterData : Option (Int → Option IParamValueQueue)

/-- Host-side `IParameterChanges`. -/
structure IParameterChanges where
  lpVtbl : Option IParameterChangesVtbl

/-- Host-side `Steinberg_Vst_Event`: the type tag and an opaque payload. -/
structure VstEvent where
  type : Nat
  payload : Nat
deriving Repr, DecidableEq

/-- Host-side `IEventList` vtable; `getEvent` is modelled by the result
code and the event it writes through the caller's pointer. -/
structure IEventListVtbl where
  getEventCount : Option Int
  getEvent : Option (Int → Int × VstEvent)

/-- Host-side `IEventList`. -/
structure IEventList where
  lpVtbl : Option IEventListVtbl

/-- `getParameterChangeCount`: 0 on a NULL handle, NULL vtable or NULL
method pointer; otherwise the host's `getParameterCount` result. -/
def getParameterChangeCount (inputParameterChanges : Option IParameterChanges) : Int :=
  match inputParameterChanges with
  | none => 0
  | some changes =>
    match changes.lpVtbl with
    | none => 0
    | some vt =>
      match vt.getParameterCount with
      | none => 0
      | some count => count

/-- `getParameterData`: NULL on a NULL handle, NULL vtable or NULL method
pointer; otherwise the queue pointer the host returns for the index. -/
def getParameterData (inputParameterChanges : Option IParameterChanges)
    (index : Int) : Option IParamValueQueue :=
  match inputParameterChanges with
  | none => none
  | some changes =>
    match changes.lpVtbl with
    | none => none
    | some vt =>
      match vt.getParameterData with
      | none => none
      | some f => f index

/-- `getParameterId`: 0 on the NULL guards, else the host's id. -/
def getParameterId (paramQueue : Option IParamValueQueue) : Nat :=
  match paramQueue with
  | none => 0
  | some queue =>
    match queue.lpVtbl with
    | none => 0
    | some vt =>
      match vt.getParameterId with
      | none => 0
      | some paramId => paramId

/-- `getPointCount`: 0 on the NULL guards, else the host's count. -/
def getPointCount (paramQueue : Option IParamValueQueue) : Int :=
  match paramQueue with
  | none => 0
  | some queue =>
    match queue.lpVtbl with
    | none => 0
    | some vt =>
      match vt.getPointCount with
      | none => 0
      | some count => count

/-- `getPoint`: kResultFalse on a NULL queue, NULL output pointer, NULL
vtable or NULL method; otherwise call the host, which writes the sample
offset directly; the value cell is overwritten from the local temporary
only when the host result is kResultOk.  `sampleOffsetPtr`/`valuePtr`
say whether the caller's output pointers are non-NULL, `mem` holds the
cells' prior contents, and the result pairs the returned code with the
cells' new contents. -/
def getPoint (paramQueue : Option IParamValueQueue) (index : Int)
    (sampleOffsetPtr valuePtr : Bool) (mem : Int × ParamValue) :
    Int × (Int × ParamValue) :=
  match paramQueue with
  | none => (1, mem)
  | some queue =>
    if !sampleOffsetPtr || !valuePtr then
      (1, mem)
    else
      match queue.lpVtbl with
      | none => (1, mem)
      | some vt =>
        match vt.getPoint with
        | none => (1, mem)
        | some gp =>
          let r := gp index
          if r.1 = 0 then
            (r.1, (r.2.1, r.2.2))
          else
            (r.1, (r.2.1, mem.2))

/-- `getEventCount`: 0 on the NULL guards, else the host's count. -/
def getEventCount (eventList : Option IEventList) : Int :=
  match eventList with
  | none => 0
  | some list =>
    match list.lpVtbl with
    | none => 0
    | some vt =>
      match vt.getEventCount with
      | none => 0
      | some count => count

/-- `getEvent`: kResultFalse on a NULL list, NULL event output pointer,
NULL vtable or NULL method; otherwise the host writes the event and its
result code is returned.  `eventPtr` says whether the caller's event
pointer is non-NULL and `mem` holds its prior contents. -/
def getEvent (eventList : Option IEventList) (index : Int)
    (eventPtr : Bool) (mem : VstEvent) : Int × VstEvent :=
  match eventList with
  | none => (1, mem)
  | some list =>
    if !eventPtr then
      (1, mem)
    else
      match list.lpVtbl with
      | none => (1, mem)
      | some vt =>
        match vt.getEvent with
        | none => (1, mem)
        | some ge => ge index

/-- `getEventType`: `return event->type`. -/
def getEventType (event : VstEvent) : Nat :=
  event.type

/-- A concrete Go environment in which every callback answers 7: used to
exhibit methods whose result does not come from any callback. -/
def envSeven : GoEnv :=
  { goGetFactoryInfo := { vendor := [], url := [], email := [], flags := 7 }
  , goCountClasses := 7
  , goGetClassInfo := fun _ =>
      { cid := [], cardinality := 7, category := [], name := [] }
  , goCreateInstance := fun _ _ => some 7
  , goComponentInitialize := fun _ _ => 7
  , goComponentTerminate := fun _ => 7
  , goComponentGetControllerClassId := fun _ => [7]
  , goComponentSetIoMode := fun _ _ => 7
  , goComponentGetBusCount := fun _ _ _ => 7
  , goComponentGetBusInfo := fun _ _ _ _ _ => 7
  , goComponentActivateBus := fun _ _ _ _ _ => 7
  , goComponentSetActive := fun _ _ => 7
  , goComponentSetState := fun _ _ => 7
  , goComponentGetState := fun _ _ => 7
  , goAudioSetBusArrangements := fun _ _ _ _ _ => 7
  , goAudioGetBusArrangement := fun _ _ _ _ => 7
  , goAudioCanProcessSampleSize := fun _ _ => 7
  , goAudioGetLatencySamples := fun _ => 7
  , goAudioSetupProcessing := fun _ _ => 7
  , goAudioSetProcessing := fun _ _ => 7
  , goAudioProcess := fun _ _ => 7
  , goAudioGetTailSamples := fun _ => 7
  , goEditControllerSetComponentState := fun _ _ => 7
  , goEditControllerSetState := fun _ _ => 7
  , goEditControllerGetState := fun _ _ => 7
  , goEditControllerGetParameterCount := fun _ => 7
  , goEditControllerGetParameterInfo := fun _ _ _ => 7
  , goEditControllerGetParamStringByValue := fun _ _ _ _ => 7
  , goEditControllerGetParamValueByString := fun _ _ _ => 7
  , goEditControllerNormalizedParamToPlain := fun _ _ _ => 7
  , goEditControllerPlainParamToNormalized := fun _ _ _ => 7
  , goEditControllerGetParamNormalized := fun _ _ => 7
  , goEditControllerSetParamNormalized := fun _ _ _ => 7
  , goEditControllerSetComponentHandler := fun _ _ => 7
  , goEditControllerCreateView := fun _ _ => 7 }

/-- A Go environment with no classes and a `GoCreateInstance` that fails
(returns NULL); everything else answers 7. -/
def envNull : GoEnv :=
  { envSeven with
      goCountClasses := 0
    , goCreateInstance := fun _ _ => none }

/-- memcmp of an id with itself always matches. -/
theorem memcmp16_self (a : TUID) : memcmp16 a a = true := by
  simp [memcmp16]

/-- Sample interface-id constants (pairwise distinct byte strings) used to
instantiate the abstract `IIDs` record in witnesses. -/
def sampleIds : IIDs :=
  { funknown := [0], ipluginfactory := [1], ipluginbase := [2]
  , icomponent := [3], iaudioprocessor := [4], ieditcontroller := [5] }

/-- A sample factory object with one reference. -/
def sampleFactory : PluginFactory :=
  { vtbl := FactoryVtblPtr.factoryVtbl, refCount := 1 }

/-- The component object `createComponent 0` allocates. -/
def sampleComponent : Component :=
  { audioProcessor := { component := Ptr.component }
  , editController := { component := Ptr.component }
  , refCount := 1
  , goComponent := 0 }

/-- C1: QueryInterface compares the 16-byte id byte-for-byte against the
known constants and, on a match, returns a pointer from the fixed facade
set: the factory pointer for FUnknown/IPluginFactory on the factory; the
Component pointer for FUnknown/IPluginBase/IComponent, the embedded audio
facade for IAudioProcessor and the embedded controller facade for
IEditController on the component; and every successful query yields only
one of those facade pointers. -/
theorem C1_queryInterface_fixed_facades
    (ids : IIDs) (f : PluginFactory) (h : Heap) (c : Component)
    (hc : h.comp = some c)
    (ha1 : memcmp16 ids.iaudioprocessor ids.funknown = false)
    (ha2 : memcmp16 ids.iaudioprocessor ids.ipluginbase = false)
    (ha3 : memcmp16 ids.iaudioprocessor ids.icomponent = false)
    (he1 : memcmp16 ids.ieditcontroller ids.funknown = false)
    (he2 : memcmp16 ids.ieditcontroller ids.ipluginbase = false)
    (he3 : memcmp16 ids.ieditcontroller ids.icomponent = false)
    (he4 : memcmp16 ids.ieditcontroller ids.iaudioprocessor = false) :
    factory_queryInterface ids f ids.funknown
      = ((factory_addRef f).1, Ptr.factory, kResultOk)
    ∧ factory_queryInterface ids f ids.ipluginfactory
      = ((factory_addRef f).1, Ptr.factory, kResultOk)
    ∧ (∀ iid, (factory_queryInterface ids f iid).2.2 = kResultOk →
        (factory_queryInterface ids f iid).2.1 = Ptr.factory)
    ∧ component_queryInterface ids h Ptr.component ids.funknown
      = some ({ h with comp := some { c with refCount := c.refCount + 1 } },
              Ptr.component, kResultOk)
    ∧ component_queryInterface ids h Ptr.component ids.ipluginbase
      = some ({ h with comp := some { c with refCount := c.refCount + 1 } },
              Ptr.component, kResultOk)
    ∧ component_queryInterface ids h Ptr.component ids.icomponent
      = some ({ h with comp := some { c with refCount := c.refCount + 1 } },
              Ptr.component, kResultOk)
    ∧ component_queryInterface ids h Ptr.component ids.iaudioprocessor
      = some ({ h with comp := some { c with refCount := c.refCount + 1 } },
              Ptr.audioProc, kResultOk)
    ∧ component_queryInterface ids h Ptr.component ids.ieditcontroller
      = some ({ h with comp := some { c with refCount := c.refCount + 1 } },
              Ptr.editCtrl, kResultOk)
    ∧ (∀ iid h2 o r,
        component_queryInterface ids h Ptr.component iid = some (h2, o, r) →
        r = kResultOk →
        (o = Ptr.component ∨ o = Ptr.audioProc ∨ o = Ptr.editCtrl)) := by
  refine ⟨?_, ?_, ?_, ?_, ?_, ?_, ?_, ?_, ?_⟩
  · simp [factory_queryInterface, memcmp16_self, kResultOk]
  · simp [factory_queryInterface, memcmp16_self, kResultOk]
  · intro iid
    unfold factory_queryInterface
    by_cases hm : (memcmp16 iid ids.funknown || memcmp16 iid ids.ipluginfactory) = true
    · simp [hm]
    · simp [hm, kResultOk, kNoInterface]
  · simp [component_queryInterface, Heap.lookupComponent, hc, component_addRef,
      memcmp16_self, kResultOk]
  · simp [component_queryInterface, Heap.lookupComponent, hc, component_addRef,
      memcmp16_self, kResultOk]
  · simp [component_queryInterface, Heap.lookupComponent, hc, component_addRef,
      memcmp16_self, kResultOk]
  · simp [component_queryInterface, Heap.lookupComponent, hc, component_addRef,
      memcmp16_self, kResultOk, ha1, ha2, ha3]
  · simp [component_queryInterface, Heap.lookupComponent, hc, component_addRef,
      memcmp16_self, kResultOk, he1, he2, he3, he4]
  · intro iid h2 o r heq hr
    unfold component_queryInterface at heq
    simp only [Heap.lookupComponent, hc, Option.some_bind] at heq
    by_cases h1 : (memcmp16 iid ids.funknown || memcmp16 iid ids.ipluginbase ||
        memcmp16 iid ids.icomponent) = true
    · simp [h1, component_addRef, Heap.lookupComponent, hc] at heq
      exact Or.inl heq.2.1.symm
    · by_cases h2m : memcmp16 iid ids.iaudioprocessor = true
      · simp [h1, h2m, component_addRef, Heap.lookupComponent, hc] at heq
        exact Or.inr (Or.inl heq.2.1.symm)
      · by_cases h3m : memcmp16 iid ids.ieditcontroller = true
        · simp [h1, h2m, h3m, component_addRef, Heap.lookupComponent, hc] at heq
          exact Or.inr (Or.inr heq.2.1.symm)
        · simp [h1, h2m, h3m] at heq
          exact absurd (heq.2.2.trans hr) (by decide)


/-- C1 witness: with concrete distinct ids, querying the IAudioProcessor
id on the concrete component returns the embedded audio facade. -/
theorem C1_queryInterface_fixed_facades_witness :
    component_queryInterface sampleIds (createComponent 0) Ptr.component
        sampleIds.iaudioprocessor
      = some ({ createComponent 0 with
                  comp := some { sampleComponent with
                                   refCount := sampleComponent.refCount + 1 } },
              Ptr.audioProc, kResultOk) :=
  (C1_queryInterface_fixed_facades sampleIds sampleFactory (createComponent 0)
    sampleComponent rfl (by decide) (by decide) (by decide) (by decide)
    (by decide) (by decide) (by decide)).2.2.2.2.2.2.1

/-- C2: AddRef and Release through the audio and controller facades act on
the one Component's refCount exactly as through the component itself, and
releasing the last reference through any facade frees the whole object
(calling `GoReleaseComponent` on the wrapped handle). -/
theorem C2_facades_share_refcount (h : Heap) (c : Component)
    (hc : h.comp = some c)
    (ha : c.audioProcessor.component = Ptr.component)
    (he : c.editController.component = Ptr.component) :
    audio_addRef h Ptr.audioProc = component_addRef h Ptr.component
    ∧ controller_addRef h Ptr.editCtrl = component_addRef h Ptr.component
    ∧ audio_release h Ptr.audioProc = component_release h Ptr.component
    ∧ controller_release h Ptr.editCtrl = component_release h Ptr.component
    ∧ component_addRef h Ptr.component
      = some ({ h with comp := some { c with refCount := c.refCount + 1 } },
              c.refCount + 1)
    ∧ (c.refCount = 1 →
        component_release h Ptr.component
          = some ({ comp := none
                  , goReleased := h.goReleased ++ [c.goComponent] }, 0)) := by
  refine ⟨?_, ?_, ?_, ?_, ?_, ?_⟩
  · simp [audio_addRef, Heap.lookupAudio, hc, ha]
  · simp [controller_addRef, Heap.lookupController, hc, he]
  · simp [audio_release, Heap.lookupAudio, hc, ha]
  · simp [controller_release, Heap.lookupController, hc, he]
  · simp [component_addRef, Heap.lookupComponent, hc]
  · intro hone
    simp [component_release, Heap.lookupComponent, hc, hone]

/-- C2 witness: on the freshly created component (refCount 1), adding a
reference through the audio facade bumps the shared count to 2. -/
theorem C2_facades_share_refcount_witness :
    audio_addRef (createComponent 0) Ptr.audioProc
      = component_addRef (createComponent 0) Ptr.component :=
  (C2_facades_share_refcount (createComponent 0) sampleComponent rfl rfl rfl).1

/-- C3: AddRef returns the incremented shared count, Release returns the
decremented count, and exactly when the count reaches zero Release frees
the object, returning 0 and (for the component) passing the wrapped Go
handle to `GoReleaseComponent`. -/
theorem C3_addref_release_free_on_zero (f : PluginFactory) (h : Heap)
    (c : Component) (hc : h.comp = some c) :
    factory_addRef f = ({ f with refCount := f.refCount + 1 }, f.refCount + 1)
    ∧ (factory_release f).2 = f.refCount - 1
    ∧ ((factory_release f).1 = none ↔ f.refCount - 1 = 0)
    ∧ (f.refCount - 1 ≠ 0 →
        (factory_release f).1 = some { f with refCount := f.refCount - 1 })
    ∧ component_addRef h Ptr.component
      = some ({ h with comp := some { c with refCount := c.refCount + 1 } },
              c.refCount + 1)
    ∧ (∀ h2 r, component_release h Ptr.component = some (h2, r) →
        r = c.refCount - 1
        ∧ (h2.comp = none ↔ c.refCount - 1 = 0)
        ∧ (c.refCount - 1 = 0 →
            h2.goReleased = h.goReleased ++ [c.goComponent])
        ∧ (c.refCount - 1 ≠ 0 →
            h2 = { h with comp := some { c with refCount := c.refCount - 1 } })) := by
  refine ⟨rfl, ?_, ?_, ?_, ?_, ?_⟩
  · unfold factory_release
    by_cases hz : f.refCount - 1 = 0
    · simp [hz]
    · simp [hz]
  · unfold factory_release
    by_cases hz : f.refCount - 1 = 0
    · simp [hz]
    · simp [hz]
  · intro hz
    simp [factory_release, hz]
  · simp [component_addRef, Heap.lookupComponent, hc]
  · intro h2 r heq
    have hrel : component_release h Ptr.component
        = some (if c.refCount - 1 = 0 then
                  ({ comp := none
                   , goReleased := h.goReleased ++ [c.goComponent] }, 0)
                else
                  ({ h with comp := some { c with refCount := c.refCount - 1 } },
                   c.refCount - 1)) := by
      simp [component_release, Heap.lookupComponent, hc]
    rw [hrel] at heq
    by_cases hz : c.refCount - 1 = 0
    · rw [if_pos hz] at heq
      simp only [Option.some.injEq, Prod.mk.injEq] at heq
      obtain ⟨hh2, hr⟩ := heq
      subst hh2
      subst hr
      exact ⟨by omega, by simp [hz], fun _ => rfl, fun hnz => absurd hz hnz⟩
    · rw [if_neg hz] at heq
      simp only [Option.some.injEq, Prod.mk.injEq] at heq
      obtain ⟨hh2, hr⟩ := heq
      subst hh2
      subst hr
      exact ⟨rfl, by simp [hz], fun hzz => absurd hzz hz, fun _ => rfl⟩

/-- C3 witness: releasing the freshly created component (count 1) frees it,
releases the Go handle and returns 0. -/
theorem C3_addref_release_free_on_zero_witness :
    (0 : Int) = sampleComponent.refCount - 1
    ∧ (({ comp := none, goReleased := [0] } : Heap).comp = none
        ↔ sampleComponent.refCount - 1 = 0)
    ∧ (sampleComponent.refCount - 1 = 0 →
        ({ comp := none, goReleased := [0] } : Heap).goReleased
          = (createComponent 0).goReleased ++ [sampleComponent.goComponent])
    ∧ (sampleComponent.refCount - 1 ≠ 0 →
        ({ comp := none, goReleased := [0] } : Heap)
          = { createComponent 0 with
                comp := some { sampleComponent with
                                 refCount := sampleComponent.refCount - 1 } }) :=
  (C3_addref_release_free_on_zero sampleFactory (createComponent 0)
    sampleComponent rfl).2.2.2.2.2 { comp := none, goReleased := [0] } 0 (by decide)

/-- C4: querying the FUnknown id through the component, the audio facade
or the controller facade returns one and the same pointer: the Component
pointer, with kResultOk, so all three facades report the same IUnknown
identity. -/
theorem C4_shared_iunknown_identity (ids : IIDs) (h : Heap) (c : Component)
    (hc : h.comp = some c)
    (ha : c.audioProcessor.component = Ptr.component)
    (he : c.editController.component = Ptr.component) :
    component_queryInterface ids h Ptr.component ids.funknown
      = some ({ h with comp := some { c with refCount := c.refCount + 1 } },
              Ptr.component, kResultOk)
    ∧ audio_queryInterface ids h Ptr.audioProc ids.funknown
      = some ({ h with comp := some { c with refCount := c.refCount + 1 } },
              Ptr.component, kResultOk)
    ∧ controller_queryInterface ids h Ptr.editCtrl ids.funknown
      = some ({ h with comp := some { c with refCount := c.refCount + 1 } },
              Ptr.component, kResultOk) := by
  have hbase : component_queryInterface ids h Ptr.component ids.funknown
      = some ({ h with comp := some { c with refCount := c.refCount + 1 } },
              Ptr.component, kResultOk) := by
    simp [component_queryInterface, Heap.lookupComponent, hc, component_addRef,
      memcmp16_self, kResultOk]
  refine ⟨hbase, ?_, ?_⟩
  · have hfwd : audio_queryInterface ids h Ptr.audioProc ids.funknown
        = component_queryInterface ids h Ptr.component ids.funknown := by
      simp [audio_queryInterface, Heap.lookupAudio, hc, ha]
    rw [hfwd]
    exact hbase
  · have hfwd : controller_queryInterface ids h Ptr.editCtrl ids.funknown
        = component_queryInterface ids h Ptr.component ids.funknown := by
      simp [controller_queryInterface, Heap.lookupController, hc, he]
    rw [hfwd]
    exact hbase

/-- C4 witness: on the concrete component all three facades yield the
Component pointer for FUnknown. -/
theorem C4_shared_iunknown_identity_witness :
    audio_queryInterface sampleIds (createComponent 0) Ptr.audioProc
        sampleIds.funknown
      = some ({ createComponent 0 with
                  comp := some { sampleComponent with
                                   refCount := sampleComponent.refCount + 1 } },
              Ptr.component, kResultOk) :=
  (C4_shared_iunknown_identity sampleIds (createComponent 0) sampleComponent
    rfl rfl rfl).2.1

/-- C7: an interface id matching none of the known constants makes
QueryInterface (factory or component) set the out pointer to NULL, return
kNoInterface and leave the reference count untouched; the count is
incremented exactly on the success branches. -/
theorem C7_unknown_iid_no_interface (ids : IIDs) (f : PluginFactory)
    (h : Heap) (c : Component) (iid : TUID)
    (hc : h.comp = some c)
    (hm1 : memcmp16 iid ids.funknown = false)
    (hm2 : memcmp16 iid ids.ipluginfactory = false)
    (hm3 : memcmp16 iid ids.ipluginbase = false)
    (hm4 : memcmp16 iid ids.icomponent = false)
    (hm5 : memcmp16 iid ids.iaudioprocessor = false)
    (hm6 : memcmp16 iid ids.ieditcontroller = false) :
    factory_queryInterface ids f iid = (f, Ptr.null, kNoInterface)
    ∧ component_queryInterface ids h Ptr.component iid
      = some (h, Ptr.null, kNoInterface)
    ∧ (∀ j, ((factory_queryInterface ids f j).2.2 = kResultOk →
          (factory_queryInterface ids f j).1.refCount = f.refCount + 1)
        ∧ ((factory_queryInterface ids f j).2.2 ≠ kResultOk →
          (factory_queryInterface ids f j).1 = f))
    ∧ (∀ j h2 o r,
        component_queryInterface ids h Ptr.component j = some (h2, o, r) →
        (r = kResultOk →
          h2.comp = some { c with refCount := c.refCount + 1 })
        ∧ (r ≠ kResultOk → h2 = h ∧ o = Ptr.null)) := by
  refine ⟨?_, ?_, ?_, ?_⟩
  · simp [factory_queryInterface, hm1, hm2, kNoInterface]
  · simp [component_queryInterface, Heap.lookupComponent, hc, hm1, hm3, hm4,
      hm5, hm6, kNoInterface]
  · intro j
    unfold factory_queryInterface
    by_cases hj : (memcmp16 j ids.funknown || memcmp16 j ids.ipluginfactory) = true
    · simp [hj, factory_addRef, kResultOk]
    · simp [hj, kResultOk, kNoInterface]
  · intro j h2 o r heq
    have hq : component_queryInterface ids h Ptr.component j
        = (if (memcmp16 j ids.funknown || memcmp16 j ids.ipluginbase ||
                memcmp16 j ids.icomponent) = true then
             some ({ h with comp := some { c with refCount := c.refCount + 1 } },
                   Ptr.component, 0)
           else if memcmp16 j ids.iaudioprocessor = true then
             some ({ h with comp := some { c with refCount := c.refCount + 1 } },
                   Ptr.audioProc, 0)
           else if memcmp16 j ids.ieditcontroller = true then
             some ({ h with comp := some { c with refCount := c.refCount + 1 } },
                   Ptr.editCtrl, 0)
           else
             some (h, Ptr.null, -1)) := by
      by_cases h1 : (memcmp16 j ids.funknown || memcmp16 j ids.ipluginbase ||
          memcmp16 j ids.icomponent) = true
      · simp [component_queryInterface, Heap.lookupComponent, hc,
          component_addRef, h1]
      · by_cases h2m : memcmp16 j ids.iaudioprocessor = true
        · simp [component_queryInterface, Heap.lookupComponent, hc,
            component_addRef, h1, h2m]
        · by_cases h3m : memcmp16 j ids.ieditcontroller = true
          · simp [component_queryInterface, Heap.lookupComponent, hc,
              component_addRef, h1, h2m, h3m]
          · simp [component_queryInterface, Heap.lookupComponent, hc,
              h1, h2m, h3m]
    rw [hq] at heq
    by_cases h1 : (memcmp16 j ids.funknown || memcmp16 j ids.ipluginbase ||
        memcmp16 j ids.icomponent) = true
    · rw [if_pos h1] at heq
      simp only [Option.some.injEq, Prod.mk.injEq] at heq
      obtain ⟨hh2, ho, hr⟩ := heq
      subst hh2; subst ho; subst hr
      exact ⟨fun _ => rfl, fun hne => absurd rfl hne⟩
    · rw [if_neg h1] at heq
      by_cases h2m : memcmp16 j ids.iaudioprocessor = true
      · rw [if_pos h2m] at heq
        simp only [Option.some.injEq, Prod.mk.injEq] at heq
        obtain ⟨hh2, ho, hr⟩ := heq
        subst hh2; subst ho; subst hr
        exact ⟨fun _ => rfl, fun hne => absurd rfl hne⟩
      · rw [if_neg h2m] at heq
        by_cases h3m : memcmp16 j ids.ieditcontroller = true
        · rw [if_pos h3m] at heq
          simp only [Option.some.injEq, Prod.mk.injEq] at heq
          obtain ⟨hh2, ho, hr⟩ := heq
          subst hh2; subst ho; subst hr
          exact ⟨fun _ => rfl, fun hne => absurd rfl hne⟩
        · rw [if_neg h3m] at heq
          simp only [Option.some.injEq, Prod.mk.injEq] at heq
          obtain ⟨hh2, ho, hr⟩ := heq
          subst hh2; subst ho; subst hr
          refine ⟨fun hzero => absurd hzero (by decide), fun _ => ⟨rfl, rfl⟩⟩

/-- C7 witness: the concrete id `[9]` matches none of the sample constants;
the component query returns NULL, kNoInterface and an unchanged heap. -/
theorem C7_unknown_iid_no_interface_witness :
    component_queryInterface sampleIds (createComponent 0) Ptr.component [9]
      = some (createComponent 0, Ptr.null, kNoInterface) :=
  (C7_unknown_iid_no_interface sampleIds sampleFactory (createComponent 0)
    sampleComponent [9] rfl (by decide) (by decide) (by decide) (by decide)
    (by decide) (by decide)).2.1

/-- C10: the first `GetPluginFactory` call allocates the singleton factory
with vtable set and refCount 1; a second call returns the same pointer
with globals (so also the refCount) unchanged; `ModuleEntry` always
returns 1 and calling it again leaves the initialized state unchanged. -/
theorem C10_factory_singleton_module_entry (s : BridgeGlobals)
    (hs : s.globalFactory = none) :
    GetPluginFactory s
      = ({ globalFactory :=
             some (s.nextAddr,
                   { vtbl := FactoryVtblPtr.factoryVtbl, refCount := 1 })
         , nextAddr := s.nextAddr + 1 }, s.nextAddr)
    ∧ GetPluginFactory (GetPluginFactory s).1
      = ((GetPluginFactory s).1, s.nextAddr)
    ∧ (∀ b, (ModuleEntry b).2 = 1)
    ∧ (∀ b, ModuleEntry (ModuleEntry b).1 = ((ModuleEntry b).1, 1)) := by
  refine ⟨?_, ?_, ?_, ?_⟩
  · simp [GetPluginFactory, hs]
  · simp [GetPluginFactory, hs]
  · intro b
    cases b <;> simp [ModuleEntry]
  · intro b
    cases b <;> simp [ModuleEntry]

/-- C10 witness: from NULL globals at address cursor 0, the second call
returns the pointer the first call allocated, without touching globals. -/
theorem C10_factory_singleton_module_entry_witness :
    GetPluginFactory
        (GetPluginFactory { globalFactory := none, nextAddr := 0 }).1
      = ((GetPluginFactory { globalFactory := none, nextAddr := 0 }).1, 0) :=
  (C10_factory_singleton_module_entry { globalFactory := none, nextAddr := 0 }
    rfl).2.1

/-- C8: every parameter-automation and event helper is total over NULL
inputs: a NULL handle, NULL vtable or NULL method pointer yields the
benign default (0, NULL, or kResultFalse) without calling through, and
getPoint also rejects NULL output pointers. -/
theorem C8_helpers_null_guards :
    getParameterChangeCount none = 0
    ∧ getParameterChangeCount (some { lpVtbl := none }) = 0
    ∧ (∀ vt : IParameterChangesVtbl, vt.getParameterCount = none →
        getParameterChangeCount (some { lpVtbl := some vt }) = 0)
    ∧ (∀ i, getParameterData none i = none)
    ∧ (∀ i, getParameterData (some { lpVtbl := none }) i = none)
    ∧ (∀ (vt : IParameterChangesVtbl) i, vt.getParameterData = none →
        getParameterData (some { lpVtbl := some vt }) i = none)
    ∧ getParameterId none = 0
    ∧ getParameterId (some { lpVtbl := none }) = 0
    ∧ (∀ vt : IParamValueQueueVtbl, vt.getParameterId = none →
        getParameterId (some { lpVtbl := some vt }) = 0)
    ∧ getPointCount none = 0
    ∧ getPointCount (some { lpVtbl := none }) = 0
    ∧ (∀ vt : IParamValueQueueVtbl, vt.getPointCount = none →
        getPointCount (some { lpVtbl := some vt }) = 0)
    ∧ (∀ i so v mem, getPoint none i so v mem = (kResultFalse, mem))
    ∧ (∀ q i v mem, getPoint (some q) i false v mem = (kResultFalse, mem))
    ∧ (∀ q i so mem, getPoint (some q) i so false mem = (kResultFalse, mem))
    ∧ (∀ i mem, getPoint (some { lpVtbl := none }) i true true mem
        = (kResultFalse, mem))
    ∧ (∀ (vt : IParamValueQueueVtbl) i mem, vt.getPoint = none →
        getPoint (some { lpVtbl := some vt }) i true true mem
          = (kResultFalse, mem))
    ∧ getEventCount none = 0
    ∧ getEventCount (some { lpVtbl := none }) = 0
    ∧ (∀ vt : IEventListVtbl, vt.getEventCount = none →
        getEventCount (some { lpVtbl := some vt }) = 0)
    ∧ (∀ i ep mem, getEvent none i ep mem = (kResultFalse, mem))
    ∧ (∀ l i mem, getEvent (some l) i false mem = (kResultFalse, mem))
    ∧ (∀ i mem, getEvent (some { lpVtbl := none }) i true mem
        = (kResultFalse, mem))
    ∧ (∀ (vt : IEventListVtbl) i mem, vt.getEvent = none →
        getEvent (some { lpVtbl := some vt }) i true mem
          = (kResultFalse, mem)) := by
  refine ⟨rfl, rfl, ?_, fun i => rfl, fun i => rfl, ?_, rfl, rfl, ?_, rfl, rfl,
    ?_, ?_, ?_, ?_, ?_, ?_, rfl, rfl, ?_, ?_, ?_, ?_, ?_⟩
  · intro vt hv
    simp [getParameterChangeCount, hv]
  · intro vt i hv
    simp [getParameterData, hv]
  · intro vt hv
    simp [getParameterId, hv]
  · intro vt hv
    simp [getPointCount, hv]
  · intro i so v mem
    rfl
  · intro q i v mem
    simp [getPoint, kResultFalse]
  · intro q i so mem
    cases so <;> simp [getPoint, kResultFalse]
  · intro i mem
    rfl
  · intro vt i mem hv
    simp [getPoint, hv, kResultFalse]
  · intro vt hv
    simp [getEventCount, hv]
  · intro i ep mem
    rfl
  · intro l i mem
    simp [getEvent, kResultFalse]
  · intro i mem
    rfl
  · intro vt i mem hv
    simp [getEvent, hv, kResultFalse]

/-- C8 witness: a vtable whose getPoint slot is a NULL function pointer
makes getPoint return kResultFalse and leave the cells untouched. -/
theorem C8_helpers_null_guards_witness :
    getPoint
        (some { lpVtbl := some
                  { getParameterId := none, getPointCount := none
                  , getPoint := none } })
        0 true true (3, 4)
      = (kResultFalse, (3, 4)) :=
  C8_helpers_null_guards.2.2.2.2.2.2.2.2.2.2.2.2.2.2.2.2.1
    { getParameterId := none, getPointCount := none, getPoint := none }
    0 (3, 4) rfl

/-- C9: getPoint returns the host's result code unchanged and overwrites
the caller's value cell exactly when that code is kResultOk; on any other
code the value cell keeps its prior contents. -/
theorem C9_getPoint_value_write_on_ok (vt : IParamValueQueueVtbl)
    (gp : Int → Int × Int × ParamValue) (hgp : vt.getPoint = some gp)
    (i : Int) (mem : Int × ParamValue) :
    (getPoint (some { lpVtbl := some vt }) i true true mem).1 = (gp i).1
    ∧ ((gp i).1 = kResultOk →
        getPoint (some { lpVtbl := some vt }) i true true mem
          = ((gp i).1, ((gp i).2.1, (gp i).2.2)))
    ∧ ((gp i).1 ≠ kResultOk →
        getPoint (some { lpVtbl := some vt }) i true true mem
          = ((gp i).1, ((gp i).2.1, mem.2))) := by
  have hg : getPoint (some { lpVtbl := some vt }) i true true mem
      = (if (gp i).1 = 0 then ((gp i).1, ((gp i).2.1, (gp i).2.2))
         else ((gp i).1, ((gp i).2.1, mem.2))) := by
    simp [getPoint, hgp]
  refine ⟨?_, ?_, ?_⟩
  · rw [hg]
    by_cases hz : (gp i).1 = 0
    · simp [hz]
    · simp [hz]
  · intro hok
    rw [kResultOk] at hok
    rw [hg, if_pos hok]
  · intro hne
    rw [kResultOk] at hne
    rw [hg, if_neg hne]

/-- C9 witness: a host getPoint that fails with code 2 leaves the value
cell at its prior contents while the sample offset cell is host-written. -/
theorem C9_getPoint_value_write_on_ok_witness :
    getPoint
        (some { lpVtbl := some
                  { getParameterId := none, getPointCount := none
                  , getPoint := some (fun _ => (2, 5, 9)) } })
        0 true true (3, 4)
      = (2, (5, 4)) :=
  (C9_getPoint_value_write_on_ok
    { getParameterId := none, getPointCount := none
    , getPoint := some (fun _ => (2, 5, 9)) }
    (fun _ => (2, 5, 9)) rfl 0 (3, 4)).2.2 (by decide)

/-- Case analysis of `component_queryInterface` on the component pointer:
the result is always one of the three success shapes or the failure
shape. -/
theorem component_queryInterface_shapes (ids : IIDs) (h : Heap)
    (c : Component) (hc : h.comp = some c) (j : TUID) :
    component_queryInterface ids h Ptr.component j
      = some ({ h with comp := some { c with refCount := c.refCount + 1 } },
              Ptr.component, 0)
    ∨ component_queryInterface ids h Ptr.component j
      = some ({ h with comp := some { c with refCount := c.refCount + 1 } },
              Ptr.audioProc, 0)
    ∨ component_queryInterface ids h Ptr.component j
      = some ({ h with comp := some { c with refCount := c.refCount + 1 } },
              Ptr.editCtrl, 0)
    ∨ component_queryInterface ids h Ptr.component j
      = some (h, Ptr.null, -1) := by
  by_cases h1 : (memcmp16 j ids.funknown || memcmp16 j ids.ipluginbase ||
      memcmp16 j ids.icomponent) = true
  · exact Or.inl (by simp [component_queryInterface, Heap.lookupComponent, hc,
      component_addRef, h1])
  · by_cases h2m : memcmp16 j ids.iaudioprocessor = true
    · exact Or.inr (Or.inl (by simp [component_queryInterface,
        Heap.lookupComponent, hc, component_addRef, h1, h2m]))
    · by_cases h3m : memcmp16 j ids.ieditcontroller = true
      · exact Or.inr (Or.inr (Or.inl (by simp [component_queryInterface,
          Heap.lookupComponent, hc, component_addRef, h1, h2m, h3m])))
      · exact Or.inr (Or.inr (Or.inr (by simp [component_queryInterface,
          Heap.lookupComponent, hc, h1, h2m, h3m])))

/-- C6: every result code the adapter produces on its own paths is one of
the four fixed VST3 codes: getRoutingInfo yields kNotImplemented, an
index at or past the class count makes getClassInfo yield kResultFalse,
a NULL instance makes createInstance yield kNoInterface, the in-range
and success paths yield kResultOk, both QueryInterface implementations
yield only codes from the fixed set, the locally implemented state and
lifecycle methods yield kResultOk, and the helper guard paths yield
kResultFalse. -/
theorem C6_adapter_result_codes (env : GoEnv) (ids : IIDs) (f : PluginFactory)
    (h : Heap) (c : Component) (index : Int) (cid iid2 : Nat)
    (hc : h.comp = some c)
    (hidx : env.goCountClasses ≤ index)
    (hnull : env.goCreateInstance cid iid2 = none) :
    (∀ a b, component_getRoutingInfo env h Ptr.component a b = kNotImplemented)
    ∧ kNotImplemented ∈ vstResultCodes
    ∧ factory_getClassInfo env index = (none, kResultFalse)
    ∧ kResultFalse ∈ vstResultCodes
    ∧ (∀ j, ¬ env.goCountClasses ≤ j →
        factory_getClassInfo env j = (some (env.goGetClassInfo j), kResultOk))
    ∧ factory_createInstance env cid iid2 = (none, kNoInterface)
    ∧ kNoInterface ∈ vstResultCodes
    ∧ (∀ ci ii inst, env.goCreateInstance ci ii = some inst →
        factory_createInstance env ci ii = (some inst, kResultOk))
    ∧ kResultOk ∈ vstResultCodes
    ∧ (∀ j, (factory_queryInterface ids f j).2.2 ∈ vstResultCodes)
    ∧ (∀ j x, component_queryInterface ids h Ptr.component j = some x →
        x.2.2 ∈ vstResultCodes)
    ∧ (factory_getFactoryInfo env).2 = kResultOk
    ∧ (∀ st, component_setState env h Ptr.component st = kResultOk)
    ∧ (∀ st, component_getState env h Ptr.component st = kResultOk)
    ∧ (∀ ctx, controller_initialize_ env h Ptr.editCtrl ctx = kResultOk)
    ∧ controller_terminate env h Ptr.editCtrl = kResultOk
    ∧ (∀ x, component_getControllerClassId env h Ptr.component = some x →
        x.2 = kResultOk)
    ∧ (∀ i mem, (getPoint none i true true mem).1 = kResultFalse)
    ∧ (∀ i mem, (getEvent none i true mem).1 = kResultFalse) := by
  refine ⟨fun a b => rfl, by decide, ?_, by decide, ?_, ?_, by decide, ?_,
    by decide, ?_, ?_, rfl, fun st => rfl, fun st => rfl, fun ctx => rfl, rfl,
    ?_, fun i mem => rfl, fun i mem => rfl⟩
  · simp [factory_getClassInfo, hidx, kResultFalse]
  · intro j hj
    simp [factory_getClassInfo, hj, kResultOk]
  · simp [factory_createInstance, hnull, kNoInterface]
  · intro ci ii inst hi
    simp [factory_createInstance, hi, kResultOk]
  · intro j
    unfold factory_queryInterface
    by_cases hj : (memcmp16 j ids.funknown || memcmp16 j ids.ipluginfactory) = true
    · simp [hj, vstResultCodes, kResultOk, kResultFalse, kNotImplemented,
        kNoInterface]
    · simp [hj, vstResultCodes, kResultOk, kResultFalse, kNotImplemented,
        kNoInterface]
  · intro j x heq
    rcases component_queryInterface_shapes ids h c hc j with hs | hs | hs | hs <;>
      (rw [hs] at heq;
       simp only [Option.some.injEq] at heq;
       rw [← heq];
       simp [vstResultCodes, kResultOk, kResultFalse, kNotImplemented,
         kNoInterface])
  · intro x heq
    have : component_getControllerClassId env h Ptr.component
        = some (env.goComponentGetControllerClassId c.goComponent, 0) := by
      simp [component_getControllerClassId, Heap.lookupComponent, hc]
    rw [this] at heq
    simp only [Option.some.injEq] at heq
    rw [← heq]
    rfl

/-- C6 witness: on the concrete environment with no classes and a failing
GoCreateInstance, an index-0 getClassInfo is out of range and produces
kResultFalse. -/
theorem C6_adapter_result_codes_witness :
    factory_getClassInfo envNull 0 = (none, kResultFalse) :=
  (C6_adapter_result_codes envNull sampleIds sampleFactory (createComponent 0)
    sampleComponent 0 0 0 rfl (by decide) rfl).2.2.1

/-- C5 counterexample: with every Go callback answering 7, getRoutingInfo
still returns 3 (no routing callback even exists), component setState
returns 0 while the declared `GoComponentSetState` callback answers 7
(it is never called), and the controller lifecycle methods return 0
without consulting any callback — so not every non-IUnknown vtable
method delegates and returns the callback's result. -/
theorem C5_counterexample_local_methods :
    component_getRoutingInfo envSeven (createComponent 0) Ptr.component 0 0 = 3
    ∧ component_setState envSeven (createComponent 0) Ptr.component 0 = 0
    ∧ envSeven.goComponentSetState 0 0 = 7
    ∧ component_setState envSeven (createComponent 0) Ptr.component 0
      ≠ envSeven.goComponentSetState 0 0
    ∧ controller_initialize_ envSeven (createComponent 0) Ptr.editCtrl 0 = 0
    ∧ controller_terminate envSeven (createComponent 0) Ptr.editCtrl = 0 :=
  ⟨rfl, rfl, rfl, by decide, rfl, rfl⟩

/-- C5 (amended): every non-IUnknown vtable method either marshals its
fixed-width arguments to the corresponding Go callback and returns that
callback's result, or is one of the locally implemented exceptions:
component getRoutingInfo returns kNotImplemented, component
setState/getState and controller initialize/terminate return kResultOk
without delegating, factory getClassInfo short-circuits an index at or
past the class count to kResultFalse, factory createInstance maps a NULL
callback result to kNoInterface, and the void callbacks (getFactoryInfo,
getControllerClassId) are invoked with the method returning kResultOk. -/
theorem C5_methods_delegate_or_fixed (env : GoEnv) (g : Nat) :
    factory_getFactoryInfo env = (env.goGetFactoryInfo, kResultOk)
    ∧ factory_countClasses env = env.goCountClasses
    ∧ (∀ j, env.goCountClasses ≤ j →
        factory_getClassInfo env j = (none, kResultFalse))
    ∧ (∀ j, ¬ env.goCountClasses ≤ j →
        factory_getClassInfo env j = (some (env.goGetClassInfo j), kResultOk))
    ∧ (∀ ci ii, env.goCreateInstance ci ii = none →
        factory_createInstance env ci ii = (none, kNoInterface))
    ∧ (∀ ci ii inst, env.goCreateInstance ci ii = some inst →
        factory_createInstance env ci ii = (some inst, kResultOk))
    ∧ (∀ ctx, component_initialize_ env (createComponent g) Ptr.component ctx
        = some (env.goComponentInitialize g ctx))
    ∧ component_terminate env (createComponent g) Ptr.component
      = some (env.goComponentTerminate g)
    ∧ component_getControllerClassId env (createComponent g) Ptr.component
      = some (env.goComponentGetControllerClassId g, kResultOk)
    ∧ (∀ mode, component_setIoMode env (createComponent g) Ptr.component mode
        = some (env.goComponentSetIoMode g mode))
    ∧ (∀ ty dir, component_getBusCount env (createComponent g) Ptr.component ty dir
        = some (env.goComponentGetBusCount g ty dir))
    ∧ (∀ ty dir i bus,
        component_getBusInfo env (createComponent g) Ptr.component ty dir i bus
          = some (env.goComponentGetBusInfo g ty dir i bus))
    ∧ (∀ a b, component_getRoutingInfo env (createComponent g) Ptr.component a b
        = kNotImplemented)
    ∧ (∀ ty dir i st,
        component_activateBus env (createComponent g) Ptr.component ty dir i st
          = some (env.goComponentActivateBus g ty dir i st))
    ∧ (∀ st, component_setActive env (createComponent g) Ptr.component st
        = some (env.goComponentSetActive g st))
    ∧ (∀ st, component_setState env (createComponent g) Ptr.component st
        = kResultOk)
    ∧ (∀ st, component_getState env (createComponent g) Ptr.component st
        = kResultOk)
    ∧ (∀ ins ni outs no,
        audio_setBusArrangements env (createComponent g) Ptr.audioProc ins ni outs no
          = some (env.goAudioSetBusArrangements g ins ni outs no))
    ∧ (∀ dir i arr,
        audio_getBusArrangement env (createComponent g) Ptr.audioProc dir i arr
          = some (env.goAudioGetBusArrangement g dir i arr))
    ∧ (∀ sz, audio_canProcessSampleSize env (createComponent g) Ptr.audioProc sz
        = some (env.goAudioCanProcessSampleSize g sz))
    ∧ audio_getLatencySamples env (createComponent g) Ptr.audioProc
      = some (env.goAudioGetLatencySamples g)
    ∧ (∀ su, audio_setupProcessing env (createComponent g) Ptr.audioProc su
        = some (env.goAudioSetupProcessing g su))
    ∧ (∀ st, audio_setProcessing env (createComponent g) Ptr.audioProc st
        = some (env.goAudioSetProcessing g st))
    ∧ (∀ d, audio_process env (createComponent g) Ptr.audioProc d
        = some (env.goAudioProcess g d))
    ∧ audio_getTailSamples env (createComponent g) Ptr.audioProc
      = some (env.goAudioGetTailSamples g)
    ∧ (∀ ctx, controller_initialize_ env (createComponent g) Ptr.editCtrl ctx
        = kResultOk)
    ∧ controller_terminate env (createComponent g) Ptr.editCtrl = kResultOk
    ∧ (∀ st, controller_setComponentState env (createComponent g) Ptr.editCtrl st
        = some (env.goEditControllerSetComponentState g st))
    ∧ (∀ st, controller_setState env (createComponent g) Ptr.editCtrl st
        = some (env.goEditControllerSetState g st))
    ∧ (∀ st, controller_getState env (createComponent g) Ptr.editCtrl st
        = some (env.goEditControllerGetState g st))
    ∧ controller_getParameterCount env (createComponent g) Ptr.editCtrl
      = some (env.goEditControllerGetParameterCount g)
    ∧ (∀ pi info, controller_getParameterInfo env (createComponent g) Ptr.editCtrl pi info
        = some (env.goEditControllerGetParameterInfo g pi info))
    ∧ (∀ pid v s, controller_getParamStringByValue env (createComponent g) Ptr.editCtrl pid v s
        = some (env.goEditControllerGetParamStringByValue g pid v s))
    ∧ (∀ pid s, controller_getParamValueByString env (createComponent g) Ptr.editCtrl pid s
        = some (env.goEditControllerGetParamValueByString g pid s))
    ∧ (∀ pid v, controller_normalizedParamToPlain env (createComponent g) Ptr.editCtrl pid v
        = some (env.goEditControllerNormalizedParamToPlain g pid v))
    ∧ (∀ pid v, controller_plainParamToNormalized env (createComponent g) Ptr.editCtrl pid v
        = some (env.goEditControllerPlainParamToNormalized g pid v))
    ∧ (∀ pid, controller_getParamNormalized env (createComponent g) Ptr.editCtrl pid
        = some (env.goEditControllerGetParamNormalized g pid))
    ∧ (∀ pid v, controller_setParamNormalized env (createComponent g) Ptr.editCtrl pid v
        = some (env.goEditControllerSetParamNormalized g pid v))
    ∧ (∀ hd, controller_setComponentHandler env (createComponent g) Ptr.editCtrl hd
        = some (env.goEditControllerSetComponentHandler g hd))
    ∧ (∀ nm, controller_createView env (createComponent g) Ptr.editCtrl nm
        = some (env.goEditControllerCreateView g nm)) := by
  repeat' apply And.intro
  all_goals intros
  all_goals
    first
      | rfl
      | simp_all [factory_getClassInfo, factory_createInstance, kResultOk,
          kResultFalse, kNoInterface]

/-- C5 amended-claim witness: in the concrete no-classes environment the
index-0 getClassInfo call short-circuits to kResultFalse. -/
theorem C5_methods_delegate_or_fixed_witness :
    factory_getClassInfo envNull 7 = (none, kResultFalse) :=
  (C5_methods_delegate_or_fixed envNull 0).2.2.1 7 (by decide)
